import Mathlib

/-!
# Verification of the email-cleanup session orchestration layer

Shallow embedding of the orchestration core of `src/src/pages/Home.tsx`:
the chat orchestrator (`sendChatMessage`, `deleteSelectedEmails`), the
selection tracker (`toggleEmailSelection`, `selectAllEmails`), the periodic
runner (`runCleanupNow`, `testRunCleanup`), the activity recorder
(`addActivityLog`, `saveActivityLog`) and the settings store
(`loadSettings`, `saveSettings`).

Modelling conventions:
* React `useState` cells become fields of an explicit `AppState` record;
  each async handler becomes a pure big-step function
  `Env → GatewayOutcome → AppState → AppState × Option Request`, where the
  `GatewayOutcome` parameter is the resolution of the single awaited
  `callAIAgent` call (either a normal envelope or a thrown rejection) and
  the returned `Option Request` records the request the handler sent, if any.
* `localStorage` becomes a `Store` record of two optional blobs.  A stored
  blob is either JSON that parses (`parses`) or text on which `JSON.parse`
  throws (`malformed`).  Since `JSON.parse` performs no shape validation,
  a parsed settings blob is a `LoadedSettings` record with every field
  optional; `JSON.stringify` / `JSON.parse` round-trips a complete record of
  booleans, integers and strings exactly, so serialization is modelled as
  the identity embedding `completeSettings`.
* JS numbers carried by agent responses are modelled as `Int`
  (every value the claims mention is integral).
* `Date.now().toString()` / `new Date().toISOString()` become the `Env`
  fields `nowId`, `nowId2`, `nowIso`; a `localStorage.setItem` quota throw
  is the `Env` flag `quotaExceeded`.
* The TS `||` fallback on strings (empty string is falsy) is `jsOrStr` /
  `jsOrOpt`.
-/

namespace MailCleaner

/-- Agent id of the interactive (chat) agent, from `Home.tsx`. -/
def RANDOM_AGENT_ID : String := "69787126a75ef8a94cc4f0d1"

/-- Agent id of the periodic-cleanup agent, from `Home.tsx`. -/
def PERIODIC_AGENT_ID : String := "697871441b6268d7b95195f6"

inductive Role where
  | user
  | assistant
deriving DecidableEq, Repr

inductive LogStatus where
  | success
  | error
deriving DecidableEq, Repr

structure ChatMessage where
  id : String
  role : Role
  content : String
  timestamp : String
deriving DecidableEq, Repr

structure ActivityLog where
  id : String
  timestamp : String
  action : String
  emailsDeleted : Int
  status : LogStatus
deriving DecidableEq, Repr

structure EmailPreview where
  id : String
  sender : String
  subject : String
  date : String
  snippet : String
  category : Option String
deriving DecidableEq, Repr

structure CriteriaIdentified where
  sender : Option String
  date_range : String
  category : String
  keywords : List String
deriving DecidableEq, Repr

structure RandomAgentResponse where
  action : String
  emails_found : Int
  emails_deleted : Int
  criteria_identified : CriteriaIdentified
  email_preview : List EmailPreview
  confirmation_required : Bool
  message : String
deriving DecidableEq, Repr

structure CleanupSummary where
  total_emails_processed : Int
  total_emails_deleted : Int
  rules_executed : Int
  execution_time_seconds : Int
deriving DecidableEq, Repr

structure RuleResult where
  rule_name : String
  rule_type : String
  emails_found : Int
  emails_deleted : Int
  status : String
deriving DecidableEq, Repr

structure PeriodicResponse where
  cleanup_summary : CleanupSummary
  rules_results : List RuleResult
  next_scheduled_run : String
  errors : List String
deriving DecidableEq, Repr

inductive Frequency where
  | daily
  | weekly
  | disabled
deriving DecidableEq, Repr

structure CleanupSettings where
  promotional : Bool
  oldEmails : Bool
  ageThreshold : Int
  scheduleEnabled : Bool
  frequency : Frequency
  scheduleTime : String
  requireConfirmation : Bool
  maxEmailsPerRun : Int
deriving DecidableEq, Repr

/-- The value `JSON.parse` actually yields for the settings key: since the
source performs no shape validation, every field may be absent. -/
structure LoadedSettings where
  promotional : Option Bool
  oldEmails : Option Bool
  ageThreshold : Option Int
  scheduleEnabled : Option Bool
  frequency : Option Frequency
  scheduleTime : Option String
  requireConfirmation : Option Bool
  maxEmailsPerRun : Option Int
deriving DecidableEq, Repr

/-- A stored settings blob: either JSON that parses (to a possibly partial
record) or text on which `JSON.parse` throws. -/
inductive SettingsBlob where
  | parses (p : LoadedSettings)
  | malformed
deriving DecidableEq, Repr

/-- A stored activity-log blob. -/
inductive ActivityBlob where
  | parses (l : List ActivityLog)
  | malformed
deriving DecidableEq, Repr

/-- The durable key-value store (`localStorage`), one optional blob per key. -/
structure Store where
  settingsBlob : Option SettingsBlob
  activityBlob : Option ActivityBlob
deriving DecidableEq, Repr

/-- Resolution of the awaited gateway call inside one handler invocation. -/
inductive GatewayOutcome (α : Type) where
  | threw
  | ok (envelope : α)
deriving DecidableEq, Repr

structure InnerResponse (α : Type) where
  status : String
  message : Option String
  result : α
deriving DecidableEq, Repr

structure Envelope (α : Type) where
  success : Bool
  error : Option String
  response : InnerResponse α
deriving DecidableEq, Repr

/-- A request sent to the agent gateway (`callAIAgent` arguments). -/
structure Request where
  instruction : String
  agentId : String
deriving DecidableEq, Repr

/-- Per-invocation environment: the id/timestamp strings the handler mints
(`Date.now().toString()`, `new Date().toISOString()`) and whether a
`localStorage.setItem` call would throw. -/
structure Env where
  nowId : String
  nowId2 : String
  nowIso : String
  quotaExceeded : Bool
deriving DecidableEq, Repr

/-- The `useState` cells of the `Home` component. -/
structure AppState where
  activeTab : String
  activityLog : List ActivityLog
  settings : CleanupSettings
  chatMessages : List ChatMessage
  chatInput : String
  chatLoading : Bool
  emailPreviews : List EmailPreview
  selectedEmails : Finset String
  chatError : Option String
  periodicLoading : Bool
  periodicError : Option String
  settingsSaved : Bool
  store : Store
deriving DecidableEq

/-- Drop leading whitespace characters. -/
def dropLeadingWs : List Char → List Char
  | [] => []
  | c :: cs => if c.isWhitespace then dropLeadingWs cs else c :: cs

/-- JS `String.prototype.trim`: strip leading and trailing whitespace.
Defined by structural recursion on the character list so that concrete
inputs evaluate inside the kernel. -/
def jsTrim (s : String) : String :=
  ⟨(dropLeadingWs (dropLeadingWs s.data).reverse).reverse⟩

/-- TS `a || b` on a string: the empty string is falsy. -/
def jsOrStr (a b : String) : String :=
  if a = "" then b else a

/-- TS `a || b` where `a` may be `undefined`: absent or empty falls through. -/
def jsOrOpt (a : Option String) (b : String) : String :=
  match a with
  | some s => if s = "" then b else s
  | none => b

/-- JS template-literal rendering of a boolean. -/
def boolStr (b : Bool) : String :=
  if b then "true" else "false"

/-- The default settings record inlined twice in `loadSettings`. -/
def defaultSettings : CleanupSettings :=
  { promotional := true
    oldEmails := true
    ageThreshold := 30
    scheduleEnabled := false
    frequency := Frequency.weekly
    scheduleTime := "09:00"
    requireConfirmation := true
    maxEmailsPerRun := 100 }

/-- A complete record viewed as a parse result (JSON round-trip is exact for
this record of booleans, integers and strings). -/
def completeSettings (s : CleanupSettings) : LoadedSettings :=
  { promotional := some s.promotional
    oldEmails := some s.oldEmails
    ageThreshold := some s.ageThreshold
    scheduleEnabled := some s.scheduleEnabled
    frequency := some s.frequency
    scheduleTime := some s.scheduleTime
    requireConfirmation := some s.requireConfirmation
    maxEmailsPerRun := some s.maxEmailsPerRun }

/-- The spec's validity constraints on a settings record (§3). -/
def ValidSettings (s : CleanupSettings) : Prop :=
  s.ageThreshold ∈ ([7, 14, 30, 60, 90] : List Int) ∧
    s.maxEmailsPerRun ∈ ([50, 100, 200, 500] : List Int)

instance : DecidablePred ValidSettings := fun s => by
  unfold ValidSettings
  infer_instance

/-- `loadSettings` from `Home.tsx`: read the key; absent → the inline default;
`JSON.parse` throws → the inline default (the `catch` branch); otherwise the
parse result is returned as-is, with no shape validation. -/
def loadSettings (st : Store) : LoadedSettings :=
  match st.settingsBlob with
  | none => completeSettings defaultSettings
  | some (SettingsBlob.parses p) => p
  | some SettingsBlob.malformed => completeSettings defaultSettings

/-- Store effect of `saveSettings`: `JSON.stringify` the current settings
record and write it under the settings key. -/
def saveSettingsStore (s : CleanupSettings) (st : Store) : Store :=
  { st with settingsBlob := some (SettingsBlob.parses (completeSettings s)) }

/-- `saveSettings` from `Home.tsx`: persist the current settings and raise the
transient saved flag; a `setItem` throw is caught and nothing happens. -/
def saveSettings (env : Env) (s : AppState) : AppState :=
  if env.quotaExceeded then s
  else
    { s with store := saveSettingsStore s.settings s.store, settingsSaved := true }

/-- `loadActivityLog` from `Home.tsx`: absent or unparsable → `[]`. -/
def loadActivityLog (st : Store) : List ActivityLog :=
  match st.activityBlob with
  | none => []
  | some (ActivityBlob.parses l) => l
  | some ActivityBlob.malformed => []

/-- `saveActivityLog` from `Home.tsx`: write the serialized list; a throw is
caught and logged, leaving the store unchanged. -/
def saveActivityLog (env : Env) (logs : List ActivityLog) (st : Store) : Store :=
  if env.quotaExceeded then st
  else { st with activityBlob := some (ActivityBlob.parses logs) }

/-- `addActivityLog` from `Home.tsx`: build the entry, prepend it, truncate to
the newest 50, set the state and persist the truncated list. -/
def addActivityLog (env : Env) (action : String) (emailsDeleted : Int)
    (status : LogStatus) (s : AppState) : AppState :=
  let newLog : ActivityLog :=
    { id := env.nowId
      timestamp := env.nowIso
      action := action
      emailsDeleted := emailsDeleted
      status := status }
  let updatedLogs := (newLog :: s.activityLog).take 50
  { s with activityLog := updatedLogs
           store := saveActivityLog env updatedLogs s.store }

/-- `toggleEmailSelection` from `Home.tsx`: flip membership of `emailId`. -/
def toggleEmailSelection (emailId : String) (s : AppState) : AppState :=
  { s with selectedEmails :=
      if emailId ∈ s.selectedEmails then s.selectedEmails.erase emailId
      else insert emailId s.selectedEmails }

/-- `selectAllEmails` from `Home.tsx`: clear when every preview is selected,
otherwise select the id of every preview. -/
def selectAllEmails (s : AppState) : AppState :=
  if s.selectedEmails.card = s.emailPreviews.length then
    { s with selectedEmails := (∅ : Finset String) }
  else
    { s with selectedEmails := (s.emailPreviews.map (fun e => e.id)).toFinset }

/-- A sequence of `toggleEmailSelection` calls, oldest first. -/
def applyToggles (ids : List String) (s : AppState) : AppState :=
  ids.foldl (fun st i => toggleEmailSelection i st) s

/-- `sendChatMessage` from `Home.tsx`.  The guard drops empty input and a
set chat gate; otherwise the user message is appended optimistically, the
input cleared, the gate raised, the error slot cleared, the gateway called,
and the outcome folded into the state; the gate is cleared in `finally`. -/
def sendChatMessage (env : Env) (outcome : GatewayOutcome (Envelope RandomAgentResponse))
    (s : AppState) : AppState × Option Request :=
  if jsTrim s.chatInput = "" ∨ s.chatLoading = true then (s, none)
  else
    let userMessage : ChatMessage :=
      { id := env.nowId, role := Role.user, content := s.chatInput, timestamp := env.nowIso }
    let s1 : AppState :=
      { s with chatMessages := s.chatMessages ++ [userMessage]
               chatInput := ""
               chatLoading := true
               chatError := none }
    let req : Request := { instruction := s.chatInput, agentId := RANDOM_AGENT_ID }
    let s2 : AppState :=
      match outcome with
      | GatewayOutcome.threw =>
          let errorMsg := "Network error. Please try again."
          let errorMessage : ChatMessage :=
            { id := env.nowId2, role := Role.assistant, content := errorMsg,
              timestamp := env.nowIso }
          { s1 with chatError := some errorMsg
                    chatMessages := s1.chatMessages ++ [errorMessage] }
      | GatewayOutcome.ok result =>
          if result.success = true ∧ result.response.status = "success" then
            let data := result.response.result
            let assistantMessage : ChatMessage :=
              { id := env.nowId2, role := Role.assistant, content := data.message,
                timestamp := env.nowIso }
            let sA := { s1 with chatMessages := s1.chatMessages ++ [assistantMessage] }
            let sB :=
              if 0 < data.email_preview.length then
                { sA with emailPreviews := data.email_preview
                          selectedEmails := (∅ : Finset String) }
              else
                { sA with emailPreviews := ([] : List EmailPreview) }
            if 0 < data.emails_deleted then
              addActivityLog env
                ("Chat cleanup: " ++ jsOrStr data.criteria_identified.category "emails")
                data.emails_deleted LogStatus.success sB
            else sB
          else
            let errorMsg :=
              jsOrOpt result.error
                (jsOrOpt result.response.message "Failed to process request")
            let errorMessage : ChatMessage :=
              { id := env.nowId2, role := Role.assistant, content := errorMsg,
                timestamp := env.nowIso }
            { s1 with chatError := some errorMsg
                      chatMessages := s1.chatMessages ++ [errorMessage] }
    ({ s2 with chatLoading := false }, some req)

/-- The instruction `deleteSelectedEmails` sends (the ids joined by comma;
`Array.from` on a JS `Set` yields insertion order, which the `Finset` model
does not track — the enumeration order is fixed here by sorting, and no claim
depends on it). -/
def deleteInstruction (s : AppState) : String :=
  "Delete these specific emails: " ++
    String.intercalate ", " (s.selectedEmails.sort (fun a b => a ≤ b))

/-- `deleteSelectedEmails` from `Home.tsx`.  A no-op only on an empty
selection (the chat gate is *not* consulted here); otherwise the gate is
raised, the error slot cleared, the gateway called with the id list, and on
an inner success the log entry is recorded, the selected previews removed,
the selection cleared and a confirmation message appended; on failure only
the error slot is set.  The gate is cleared in `finally`. -/
def deleteSelectedEmails (env : Env) (outcome : GatewayOutcome (Envelope RandomAgentResponse))
    (s : AppState) : AppState × Option Request :=
  if s.selectedEmails.card = 0 then (s, none)
  else
    let s1 : AppState := { s with chatLoading := true, chatError := none }
    let req : Request := { instruction := deleteInstruction s, agentId := RANDOM_AGENT_ID }
    let s2 : AppState :=
      match outcome with
      | GatewayOutcome.threw =>
          { s1 with chatError := some "Network error. Please try again." }
      | GatewayOutcome.ok result =>
          if result.success = true ∧ result.response.status = "success" then
            let data := result.response.result
            let sA :=
              addActivityLog env
                ("Deleted " ++ toString s.selectedEmails.card ++ " selected emails")
                data.emails_deleted LogStatus.success s1
            let sB :=
              { sA with emailPreviews :=
                          sA.emailPreviews.filter (fun e => decide (e.id ∉ s.selectedEmails))
                        selectedEmails := (∅ : Finset String) }
            let confirmMessage : ChatMessage :=
              { id := env.nowId, role := Role.assistant,
                content := "Successfully deleted " ++ toString data.emails_deleted ++ " emails.",
                timestamp := env.nowIso }
            { sB with chatMessages := sB.chatMessages ++ [confirmMessage] }
          else
            { s1 with chatError := some (jsOrOpt result.error "Failed to delete emails") }
    ({ s2 with chatLoading := false }, some req)

/-- The instruction `runCleanupNow` sends, serialized from the settings. -/
def runInstruction (s : AppState) : String :=
  "Run cleanup with settings: promotional=" ++ boolStr s.settings.promotional ++
    ", old_emails=" ++ boolStr s.settings.oldEmails ++
    ", age_threshold=" ++ toString s.settings.ageThreshold ++ " days"

/-- `runCleanupNow` from `Home.tsx`.  No gate check; raises the periodic
gate, clears the periodic error slot, calls the periodic agent; on inner
success records a success entry counting `total_emails_deleted` and switches
to the dashboard tab; on inner failure or a throw sets the error slot and
records a zero-count error entry.  The gate is cleared in `finally`. -/
def runCleanupNow (env : Env) (outcome : GatewayOutcome (Envelope PeriodicResponse))
    (s : AppState) : AppState × Option Request :=
  let s1 : AppState := { s with periodicLoading := true, periodicError := none }
  let req : Request := { instruction := runInstruction s, agentId := PERIODIC_AGENT_ID }
  let s2 : AppState :=
    match outcome with
    | GatewayOutcome.threw =>
        addActivityLog env "Scheduled cleanup failed" 0 LogStatus.error
          { s1 with periodicError := some "Network error. Please try again." }
    | GatewayOutcome.ok result =>
        if result.success = true ∧ result.response.status = "success" then
          let data := result.response.result
          let sA :=
            addActivityLog env "Scheduled cleanup executed"
              data.cleanup_summary.total_emails_deleted LogStatus.success s1
          { sA with activeTab := "dashboard" }
        else
          addActivityLog env "Scheduled cleanup failed" 0 LogStatus.error
            { s1 with periodicError := some (jsOrOpt result.error "Cleanup failed") }
  ({ s2 with periodicLoading := false }, some req)

/-- The instruction `testRunCleanup` sends: the run instruction with an
explicit dry-run qualifier. -/
def testInstruction (s : AppState) : String :=
  "Test cleanup (dry run) with settings: promotional=" ++ boolStr s.settings.promotional ++
    ", old_emails=" ++ boolStr s.settings.oldEmails ++
    ", age_threshold=" ++ toString s.settings.ageThreshold ++
    " days. Do not delete, just show what would be deleted."

/-- `testRunCleanup` from `Home.tsx`.  No gate check; on inner success
records a success entry with count 0 whose label carries
`total_emails_processed`; on inner failure or a throw only the periodic
error slot is set (no log entry).  The gate is cleared in `finally`. -/
def testRunCleanup (env : Env) (outcome : GatewayOutcome (Envelope PeriodicResponse))
    (s : AppState) : AppState × Option Request :=
  let s1 : AppState := { s with periodicLoading := true, periodicError := none }
  let req : Request := { instruction := testInstruction s, agentId := PERIODIC_AGENT_ID }
  let s2 : AppState :=
    match outcome with
    | GatewayOutcome.threw =>
        { s1 with periodicError := some "Network error. Please try again." }
    | GatewayOutcome.ok result =>
        if result.success = true ∧ result.response.status = "success" then
          let data := result.response.result
          addActivityLog env
            ("Test run: would delete " ++
              toString data.cleanup_summary.total_emails_processed ++ " emails")
            0 LogStatus.success s1
        else
          { s1 with periodicError := some (jsOrOpt result.error "Test run failed") }
  ({ s2 with periodicLoading := false }, some req)

/-- The component's mount state: empty transcript, no previews, no selection,
both gates down, log loaded from the store, settings loaded (a complete
record here; the unvalidated-parse hole is examined through `loadSettings`
directly). -/
def initialState : AppState :=
  { activeTab := "dashboard"
    activityLog := []
    settings := defaultSettings
    chatMessages := []
    chatInput := ""
    chatLoading := false
    emailPreviews := []
    selectedEmails := (∅ : Finset String)
    chatError := none
    periodicLoading := false
    periodicError := none
    settingsSaved := false
    store := { settingsBlob := none, activityBlob := none } }

/-! ## Shared helper lemmas -/

/-- One toggle flips exactly the toggled id's membership. -/
theorem mem_toggleEmailSelection (i x : String) (s : AppState) :
    x ∈ (toggleEmailSelection i s).selectedEmails ↔
      Xor' (x = i) (x ∈ s.selectedEmails) := by
  by_cases h : i ∈ s.selectedEmails <;>
    by_cases hx : x = i <;>
      simp [toggleEmailSelection, h, hx, Finset.mem_erase, Finset.mem_insert, Xor']

/-- Toggling touches nothing but the selection set. -/
theorem toggleEmailSelection_frame (i : String) (s : AppState) :
    (toggleEmailSelection i s).emailPreviews = s.emailPreviews ∧
      (toggleEmailSelection i s).activityLog = s.activityLog ∧
      (toggleEmailSelection i s).chatMessages = s.chatMessages := by
  simp [toggleEmailSelection]

/-- Membership after a toggle sequence is the starting membership XOR-ed
with the parity of that id's toggle count. -/
theorem mem_applyToggles (ids : List String) (s : AppState) (x : String) :
    x ∈ (applyToggles ids s).selectedEmails ↔
      Xor' (Odd (ids.count x)) (x ∈ s.selectedEmails) := by
  induction ids generalizing s with
  | nil => simp [applyToggles, Xor']
  | cons i rest ih =>
      have step : applyToggles (i :: rest) s = applyToggles rest (toggleEmailSelection i s) := rfl
      rw [step, ih, mem_toggleEmailSelection]
      by_cases hx : x = i
      · subst hx
        rw [List.count_cons_self, Nat.odd_add_one]
        simp only [Xor', eq_self_iff_true, true_and, not_true, false_or, and_true]
        tauto
      · rw [List.count_cons_of_ne hx]
        simp only [Xor', hx, false_and, and_false, false_or, or_false, not_false_iff, and_true]

/-! ## Concrete fixtures used by witnesses and counterexamples -/

/-- A concrete per-invocation environment. -/
def envA : Env :=
  { nowId := "1", nowId2 := "2", nowIso := "t0", quotaExceeded := false }

/-- A concrete email preview with id `a`. -/
def previewA : EmailPreview :=
  { id := "a", sender := "Acme", subject := "Sale", date := "2024-01-02",
    snippet := "hello", category := none }

/-- A successful interactive-agent result that carries no previews and
deleted nothing. -/
def emptyPreviewResult : RandomAgentResponse :=
  { action := "list", emails_found := 0, emails_deleted := 0,
    criteria_identified :=
      { sender := none, date_range := "", category := "", keywords := [] },
    email_preview := [], confirmation_required := false,
    message := "No emails matched." }

/-- Wrap an interactive result in a structurally successful envelope with
inner status success. -/
def okEnvelope (r : RandomAgentResponse) : Envelope RandomAgentResponse :=
  { success := true, error := none,
    response := { status := "success", message := none, result := r } }

/-- A concrete periodic result: 42 processed, 7 deleted. -/
def periodicResultA : PeriodicResponse :=
  { cleanup_summary :=
      { total_emails_processed := 42, total_emails_deleted := 7,
        rules_executed := 2, execution_time_seconds := 1 },
    rules_results := [], next_scheduled_run := "soon", errors := [] }

/-- Wrap a periodic result in a successful envelope. -/
def okPeriodicEnvelope (r : PeriodicResponse) : Envelope PeriodicResponse :=
  { success := true, error := none,
    response := { status := "success", message := none, result := r } }

/-- A state showing one preview, with it selected and a pending utterance. -/
def stateWithSelection : AppState :=
  { initialState with chatInput := "clear", emailPreviews := [previewA],
                      selectedEmails := {"a"} }

/-- A concrete old activity entry. -/
def entryOld : ActivityLog :=
  { id := "0", timestamp := "t", action := "old", emailsDeleted := 0,
    status := LogStatus.success }

/-- A state whose activity log is already at the 50-entry cap. -/
def fullLogState : AppState :=
  { initialState with activityLog := List.replicate 50 entryOld }

/-- A parse result with every settings field absent (`JSON.parse` on the
blob `"{}"` under the settings key). -/
def blankLoaded : LoadedSettings :=
  { promotional := none, oldEmails := none, ageThreshold := none,
    scheduleEnabled := none, frequency := none, scheduleTime := none,
    requireConfirmation := none, maxEmailsPerRun := none }

/-- An empty store. -/
def emptyStore : Store :=
  { settingsBlob := none, activityBlob := none }

/-- A store holding valid JSON that is not a settings record. -/
def wrongShapeStore : Store :=
  { settingsBlob := some (SettingsBlob.parses blankLoaded), activityBlob := none }

/-! ## C6 — activity log bound, ordering, persistence -/

/-- C6: every append prepends the new entry and truncates to the newest 50,
so after any append the log holds at most 50 entries; once the log holds 50
entries the next append drops exactly the oldest entry, keeping the newest
50 in newest-first order; and the full truncated list is what gets persisted
(whenever the store write does not throw). -/
theorem c6_activity_log_bounded_newest_first :
    (∀ (env : Env) (a : String) (n : Int) (st : LogStatus) (s : AppState),
        (addActivityLog env a n st s).activityLog =
          ({ id := env.nowId, timestamp := env.nowIso, action := a,
             emailsDeleted := n, status := st } :: s.activityLog).take 50) ∧
    (∀ (env : Env) (a : String) (n : Int) (st : LogStatus) (s : AppState),
        (addActivityLog env a n st s).activityLog.length ≤ 50) ∧
    (∀ (env : Env) (a : String) (n : Int) (st : LogStatus) (s : AppState),
        s.activityLog.length = 50 →
        (addActivityLog env a n st s).activityLog =
          { id := env.nowId, timestamp := env.nowIso, action := a,
            emailsDeleted := n, status := st } :: s.activityLog.take 49 ∧
        (addActivityLog env a n st s).activityLog.length = 50) ∧
    (∀ (env : Env) (a : String) (n : Int) (st : LogStatus) (s : AppState),
        env.quotaExceeded = false →
        (addActivityLog env a n st s).store.activityBlob =
          some (ActivityBlob.parses (addActivityLog env a n st s).activityLog)) := by
  refine ⟨fun env a n st s => rfl, fun env a n st s => ?_, fun env a n st s h => ?_,
    fun env a n st s hq => ?_⟩
  · simp [addActivityLog]
  · constructor
    · show ((_ :: s.activityLog).take 50) = _
      rw [List.take_succ_cons]
    · simp [addActivityLog, h]
  · simp [addActivityLog, saveActivityLog, hq]

/-- C6 witness: appending to a concretely full 50-entry log keeps length 50
and drops the oldest entry. -/
theorem c6_activity_log_bounded_newest_first_witness :
    (addActivityLog envA "run" 1 LogStatus.success fullLogState).activityLog =
      { id := "1", timestamp := "t0", action := "run", emailsDeleted := 1,
        status := LogStatus.success } :: List.replicate 49 entryOld := by
  have h := (c6_activity_log_bounded_newest_first.2.2.1 envA "run" 1 LogStatus.success
    fullLogState (by simp [fullLogState])).1
  rw [h]
  simp [envA, fullLogState, List.take_replicate]

/-! ## C7 — settings round-trip and load defaults -/

/-- C7 counterexample: the claim says `load()` yields a complete record for
every store state, but `loadSettings` performs no shape validation — on a
store whose settings blob is JSON that parses to an empty object, every
field of the loaded record is absent (and the result is not the default). -/
theorem c7_load_partial_record_counterexample :
    (loadSettings wrongShapeStore).promotional = none ∧
      loadSettings wrongShapeStore ≠ completeSettings defaultSettings := by
  constructor
  · rfl
  · decide

/-- C7 (amended): saving a valid settings record and loading returns it
exactly (also through the component-level `saveSettings` when the store
write does not throw); a missing settings blob or one on which `JSON.parse`
throws loads as the complete default record; but a blob that parses without
being a complete settings record is returned as-is, unvalidated, so loading
can yield a partial record. -/
theorem c7_settings_roundtrip_amended :
    (∀ (st : Store) (s : CleanupSettings), ValidSettings s →
        loadSettings (saveSettingsStore s st) = completeSettings s) ∧
    (∀ (env : Env) (s : AppState), env.quotaExceeded = false →
        loadSettings (saveSettings env s).store = completeSettings s.settings) ∧
    (∀ st : Store, st.settingsBlob = none →
        loadSettings st = completeSettings defaultSettings) ∧
    (∀ st : Store, st.settingsBlob = some SettingsBlob.malformed →
        loadSettings st = completeSettings defaultSettings) ∧
    (∀ (st : Store) (p : LoadedSettings),
        st.settingsBlob = some (SettingsBlob.parses p) → loadSettings st = p) := by
  refine ⟨fun st s _ => rfl, fun env s hq => ?_, fun st h => ?_, fun st h => ?_,
    fun st p h => ?_⟩
  · simp [saveSettings, hq, saveSettingsStore, loadSettings]
  · simp [loadSettings, h]
  · simp [loadSettings, h]
  · simp [loadSettings, h]

/-- C7 witness: round-trips the concrete default record, which is valid. -/
theorem c7_settings_roundtrip_amended_witness :
    loadSettings (saveSettingsStore defaultSettings emptyStore) =
      completeSettings defaultSettings :=
  c7_settings_roundtrip_amended.1 emptyStore defaultSettings (by decide)

/-! ## C8 — double select-all-or-none -/

/-- C8 counterexample: starting from a batch of one preview with that one
preview selected, two `selectAllEmails` calls end with the selection equal
to the full batch again, not empty (the first call clears, the second
selects all). -/
theorem c8_double_select_all_counterexample :
    (selectAllEmails (selectAllEmails stateWithSelection)).selectedEmails ≠
      (∅ : Finset String) := by
  decide

/-- C8 (amended): when the preview ids are duplicate-free and the starting
selection size differs from the batch size, two `selectAllEmails` calls with
no intervening state change leave the selection empty; but when the
starting selection size already equals the size of a non-empty batch, two
calls return the selection to the full id set of the batch, not to empty. -/
theorem c8_double_select_all_amended :
    (∀ s : AppState, (s.emailPreviews.map (fun e => e.id)).Nodup →
        s.selectedEmails.card ≠ s.emailPreviews.length →
        (selectAllEmails (selectAllEmails s)).selectedEmails = (∅ : Finset String)) ∧
    (∀ s : AppState, s.selectedEmails.card = s.emailPreviews.length →
        s.emailPreviews ≠ [] →
        (selectAllEmails (selectAllEmails s)).selectedEmails =
          (s.emailPreviews.map (fun e => e.id)).toFinset) := by
  constructor
  · intro s hn hne
    have h1 : selectAllEmails s =
        { s with selectedEmails := (s.emailPreviews.map (fun e => e.id)).toFinset } := by
      simp [selectAllEmails, hne]
    rw [h1]
    have hcard : ((s.emailPreviews.map (fun e => e.id)).toFinset).card =
        s.emailPreviews.length := by
      rw [List.toFinset_card_of_nodup hn, List.length_map]
    simp [selectAllEmails, hcard]
  · intro s heq hne
    have h1 : selectAllEmails s = { s with selectedEmails := (∅ : Finset String) } := by
      simp [selectAllEmails, heq]
    rw [h1]
    have hlen : s.emailPreviews.length ≠ 0 := by
      simpa [List.length_eq_zero] using hne
    have h0 : ¬((0 : Nat) = s.emailPreviews.length) := fun h => hlen h.symm
    simp [selectAllEmails, h0]

/-- C8 witness: from an empty selection over a one-element batch, two calls
return to empty. -/
theorem c8_double_select_all_amended_witness :
    (selectAllEmails (selectAllEmails
        { initialState with emailPreviews := [previewA] })).selectedEmails =
      (∅ : Finset String) :=
  c8_double_select_all_amended.1
    { initialState with emailPreviews := [previewA] } (by decide) (by decide)

/-! ## Characterization lemmas for the chat handlers -/

/-- Full-state characterization of `sendChatMessage` when the gateway call
throws and the guard lets the call through. -/
theorem sendChatMessage_threw (env : Env) (s : AppState)
    (h1 : jsTrim s.chatInput ≠ "") (h2 : s.chatLoading = false) :
    sendChatMessage env GatewayOutcome.threw s =
      ({ s with
          chatMessages := s.chatMessages ++
            [{ id := env.nowId, role := Role.user, content := s.chatInput,
               timestamp := env.nowIso },
             { id := env.nowId2, role := Role.assistant,
               content := "Network error. Please try again.",
               timestamp := env.nowIso }]
          chatInput := ""
          chatLoading := false
          chatError := some "Network error. Please try again." },
        some { instruction := s.chatInput, agentId := RANDOM_AGENT_ID }) := by
  have hg : ¬(jsTrim s.chatInput = "" ∨ s.chatLoading = true) := by
    simp [h1, h2]
  simp [sendChatMessage, hg]

/-- Full-state characterization of `sendChatMessage` on a structurally
returned envelope that is not an inner success. -/
theorem sendChatMessage_ok_failure (env : Env) (r : Envelope RandomAgentResponse)
    (s : AppState) (h1 : jsTrim s.chatInput ≠ "") (h2 : s.chatLoading = false)
    (hfail : ¬(r.success = true ∧ r.response.status = "success")) :
    sendChatMessage env (GatewayOutcome.ok r) s =
      ({ s with
          chatMessages := s.chatMessages ++
            [{ id := env.nowId, role := Role.user, content := s.chatInput,
               timestamp := env.nowIso },
             { id := env.nowId2, role := Role.assistant,
               content := jsOrOpt r.error
                 (jsOrOpt r.response.message "Failed to process request"),
               timestamp := env.nowIso }]
          chatInput := ""
          chatLoading := false
          chatError := some (jsOrOpt r.error
            (jsOrOpt r.response.message "Failed to process request")) },
        some { instruction := s.chatInput, agentId := RANDOM_AGENT_ID }) := by
  have hg : ¬(jsTrim s.chatInput = "" ∨ s.chatLoading = true) := by
    simp [h1, h2]
  simp [sendChatMessage, hg, hfail]

/-! ## C1 — toggle parity and the selection/preview subset invariant -/

/-- C1 counterexample: the claim says the selection stays a subset of the
current preview ids after every operation and empties on any wholesale
batch replacement, but a successful submit whose result carries no previews
clears the batch *without* resetting the selection: starting from one
selected preview, the resulting state has an empty batch and a non-empty
(stale) selection. -/
theorem c1_stale_selection_counterexample :
    (sendChatMessage envA (GatewayOutcome.ok (okEnvelope emptyPreviewResult))
        stateWithSelection).1.emailPreviews = [] ∧
      (sendChatMessage envA (GatewayOutcome.ok (okEnvelope emptyPreviewResult))
          stateWithSelection).1.selectedEmails ≠ (∅ : Finset String) := by
  constructor
  · rfl
  · decide

/-- C1 (amended): from an empty selection, membership after any sequence of
`toggle(id)` calls equals the parity of that id's toggles; the selection is
reset to empty whenever a successful submit replaces the batch with a
non-empty preview list, and cleared by a successful delete-selected; but a
successful submit whose result carries no previews clears the batch while
leaving the selection untouched, so the selection may then retain ids that
are absent from the (empty) batch. -/
theorem c1_selection_parity_reset_amended :
    (∀ (ids : List String) (s : AppState) (x : String), s.selectedEmails = ∅ →
        (x ∈ (applyToggles ids s).selectedEmails ↔ Odd (ids.count x))) ∧
    (∀ (env : Env) (r : Envelope RandomAgentResponse) (s : AppState),
        r.success = true → r.response.status = "success" →
        r.response.result.email_preview ≠ [] →
        jsTrim s.chatInput ≠ "" → s.chatLoading = false →
        (sendChatMessage env (GatewayOutcome.ok r) s).1.selectedEmails =
            (∅ : Finset String) ∧
          (sendChatMessage env (GatewayOutcome.ok r) s).1.emailPreviews =
            r.response.result.email_preview) ∧
    (∀ (env : Env) (r : Envelope RandomAgentResponse) (s : AppState),
        r.success = true → r.response.status = "success" →
        r.response.result.email_preview = [] →
        jsTrim s.chatInput ≠ "" → s.chatLoading = false →
        (sendChatMessage env (GatewayOutcome.ok r) s).1.emailPreviews = [] ∧
          (sendChatMessage env (GatewayOutcome.ok r) s).1.selectedEmails =
            s.selectedEmails) ∧
    (∀ (env : Env) (r : Envelope RandomAgentResponse) (s : AppState),
        r.success = true → r.response.status = "success" →
        s.selectedEmails.card ≠ 0 →
        (deleteSelectedEmails env (GatewayOutcome.ok r) s).1.selectedEmails =
          (∅ : Finset String)) := by
  refine ⟨fun ids s x h0 => ?_, fun env r s hsucc hstat hne h1 h2 => ?_,
    fun env r s hsucc hstat hemp h1 h2 => ?_, fun env r s hsucc hstat hsel => ?_⟩
  · rw [mem_applyToggles, h0]
    simp [Xor']
  · have hg : ¬(jsTrim s.chatInput = "" ∨ s.chatLoading = true) := by simp [h1, h2]
    have hcond : r.success = true ∧ r.response.status = "success" := ⟨hsucc, hstat⟩
    have hlen : 0 < r.response.result.email_preview.length :=
      List.length_pos.mpr hne
    constructor <;>
      · simp only [sendChatMessage, hg, if_false, ite_false, if_pos hcond, if_pos hlen]
        split <;> simp [addActivityLog]
  · have hg : ¬(jsTrim s.chatInput = "" ∨ s.chatLoading = true) := by simp [h1, h2]
    have hcond : r.success = true ∧ r.response.status = "success" := ⟨hsucc, hstat⟩
    have hlen : ¬(0 < r.response.result.email_preview.length) := by
      simp [hemp]
    constructor <;>
      · simp only [sendChatMessage, hg, if_false, ite_false, if_pos hcond, if_neg hlen]
        split <;> simp [addActivityLog]
  · have hcond : r.success = true ∧ r.response.status = "success" := ⟨hsucc, hstat⟩
    simp only [deleteSelectedEmails, if_neg hsel, if_pos hcond]

/-- C1 witness: one toggle of a fresh id selects it (odd parity), and a
successful submit carrying one preview resets the selection to empty. -/
theorem c1_selection_parity_reset_amended_witness :
    ("a" ∈ (applyToggles ["a"] initialState).selectedEmails ↔ Odd 1) ∧
      (sendChatMessage envA
          (GatewayOutcome.ok (okEnvelope
            { emptyPreviewResult with email_preview := [previewA] }))
          stateWithSelection).1.selectedEmails = (∅ : Finset String) := by
  constructor
  · have h := c1_selection_parity_reset_amended.1 ["a"] initialState "a" rfl
    simpa using h
  · exact (c1_selection_parity_reset_amended.2.1 envA
      (okEnvelope { emptyPreviewResult with email_preview := [previewA] })
      stateWithSelection rfl rfl (by decide) (by decide) rfl).1

/-! ## C2 — in-flight gates -/

/-- A state that is mid-chat-request (gate up) with a non-empty selection. -/
def busyChatState : AppState :=
  { initialState with chatLoading := true, emailPreviews := [previewA],
                      selectedEmails := {"a"}, chatInput := "more" }

/-- C2 counterexample: the claim says an invocation of `deleteSelected`
while the chat gate is set is a no-op that sends no request and mutates no
state, but `deleteSelectedEmails` never consults the gate: invoked with the
gate up and a non-empty selection it still sends a request and (here, on a
transport failure) sets the chat error slot. -/
theorem c2_delete_ignores_gate_counterexample :
    (deleteSelectedEmails envA GatewayOutcome.threw busyChatState).2 ≠ none ∧
      (deleteSelectedEmails envA GatewayOutcome.threw busyChatState).1.chatError ≠
        busyChatState.chatError := by
  constructor <;> decide

/-- C2 (amended): `submit` consults the chat gate — while it is set a second
submit is a no-op that sends no request and mutates no state, dropped rather
than queued; but `deleteSelected`, `runNow` and `testRun` do not themselves
consult their gate: invoked while the respective gate is set (with a
non-empty selection, for `deleteSelected`) each still sends its request —
concurrent invocation is prevented only by the UI disabling their buttons
while the gate is set. -/
theorem c2_in_flight_gates_amended :
    (∀ (env : Env) (o : GatewayOutcome (Envelope RandomAgentResponse)) (s : AppState),
        s.chatLoading = true → sendChatMessage env o s = (s, none)) ∧
    (∀ (env : Env) (o : GatewayOutcome (Envelope RandomAgentResponse)) (s : AppState),
        s.chatLoading = true → s.selectedEmails.card ≠ 0 →
        (deleteSelectedEmails env o s).2 =
          some { instruction := deleteInstruction s, agentId := RANDOM_AGENT_ID }) ∧
    (∀ (env : Env) (o : GatewayOutcome (Envelope PeriodicResponse)) (s : AppState),
        s.periodicLoading = true →
        (runCleanupNow env o s).2 =
            some { instruction := runInstruction s, agentId := PERIODIC_AGENT_ID } ∧
          (testRunCleanup env o s).2 =
            some { instruction := testInstruction s, agentId := PERIODIC_AGENT_ID }) := by
  refine ⟨fun env o s h => ?_, fun env o s _ hsel => ?_, fun env o s _ => ⟨?_, ?_⟩⟩
  · have hg : jsTrim s.chatInput = "" ∨ s.chatLoading = true := Or.inr h
    simp [sendChatMessage, hg]
  · simp only [deleteSelectedEmails, if_neg hsel]
  · simp [runCleanupNow]
  · simp [testRunCleanup]

/-- C2 witness: with the chat gate concretely up, a submit leaves the state
untouched and sends nothing. -/
theorem c2_in_flight_gates_amended_witness :
    sendChatMessage envA GatewayOutcome.threw busyChatState =
      (busyChatState, none) :=
  c2_in_flight_gates_amended.1 envA GatewayOutcome.threw busyChatState rfl

/-! ## C3 — transport failures: generic message, activity-log policy -/

/-- C3 counterexample: the claim says a transport failure is never recorded
as an activity entry for any entry point, but `runCleanupNow` appends a
zero-count error entry in its catch branch: on a thrown gateway call from
the mount state the log grows. -/
theorem c3_runNow_logs_transport_failure_counterexample :
    (runCleanupNow envA GatewayOutcome.threw initialState).1.activityLog ≠
      initialState.activityLog := by
  decide

/-- C3 (amended): every entry point reports a transport failure with the
same fixed generic message, and `submit`, `deleteSelected` and `testRun`
write no activity entry for it — but `runNow` records a zero-count error
entry ("Scheduled cleanup failed") even on a transport failure. -/
theorem c3_transport_failure_amended :
    (∀ (env : Env) (s : AppState), jsTrim s.chatInput ≠ "" → s.chatLoading = false →
        (sendChatMessage env GatewayOutcome.threw s).1.chatError =
            some "Network error. Please try again." ∧
          (sendChatMessage env GatewayOutcome.threw s).1.activityLog = s.activityLog ∧
          (sendChatMessage env GatewayOutcome.threw s).1.store = s.store) ∧
    (∀ (env : Env) (s : AppState), s.selectedEmails.card ≠ 0 →
        (deleteSelectedEmails env GatewayOutcome.threw s).1.chatError =
            some "Network error. Please try again." ∧
          (deleteSelectedEmails env GatewayOutcome.threw s).1.activityLog =
            s.activityLog ∧
          (deleteSelectedEmails env GatewayOutcome.threw s).1.store = s.store) ∧
    (∀ (env : Env) (s : AppState),
        (testRunCleanup env GatewayOutcome.threw s).1.periodicError =
            some "Network error. Please try again." ∧
          (testRunCleanup env GatewayOutcome.threw s).1.activityLog = s.activityLog ∧
          (testRunCleanup env GatewayOutcome.threw s).1.store = s.store) ∧
    (∀ (env : Env) (s : AppState),
        (runCleanupNow env GatewayOutcome.threw s).1.periodicError =
            some "Network error. Please try again." ∧
          (runCleanupNow env GatewayOutcome.threw s).1.activityLog =
            ({ id := env.nowId, timestamp := env.nowIso,
               action := "Scheduled cleanup failed", emailsDeleted := 0,
               status := LogStatus.error } :: s.activityLog).take 50) := by
  refine ⟨fun env s h1 h2 => ?_, fun env s hsel => ?_, fun env s => ?_, fun env s => ?_⟩
  · rw [sendChatMessage_threw env s h1 h2]
    exact ⟨rfl, rfl, rfl⟩
  · simp [deleteSelectedEmails, hsel]
  · exact ⟨rfl, rfl, rfl⟩
  · exact ⟨rfl, rfl⟩

/-- C3 witness: a concrete thrown submit sets the generic chat error and
leaves the activity log alone. -/
theorem c3_transport_failure_amended_witness :
    (sendChatMessage envA GatewayOutcome.threw stateWithSelection).1.chatError =
        some "Network error. Please try again." ∧
      (sendChatMessage envA GatewayOutcome.threw stateWithSelection).1.activityLog =
        stateWithSelection.activityLog := by
  have h := c3_transport_failure_amended.1 envA stateWithSelection (by decide) rfl
  exact ⟨h.1, h.2.1⟩

/-! ## C4 — periodic success recording -/

/-- C4: on a successful periodic response, `runNow` records exactly one
success entry counting `cleanup_summary.total_emails_deleted` and switches
to the dashboard view, while `testRun` on the same response shape records
exactly one success entry with count 0 whose label carries
`cleanup_summary.total_emails_processed`; the test entry's count is never
`total_emails_processed` (when the latter is non-zero) and the run entry's
count is never `total_emails_processed` (when the two totals differ). -/
theorem c4_periodic_success_recording (env : Env) (r : Envelope PeriodicResponse)
    (s : AppState) (hs : r.success = true) (hst : r.response.status = "success") :
    (runCleanupNow env (GatewayOutcome.ok r) s).1.activityLog =
        ({ id := env.nowId, timestamp := env.nowIso,
           action := "Scheduled cleanup executed",
           emailsDeleted := r.response.result.cleanup_summary.total_emails_deleted,
           status := LogStatus.success } :: s.activityLog).take 50 ∧
      (runCleanupNow env (GatewayOutcome.ok r) s).1.activeTab = "dashboard" ∧
      (testRunCleanup env (GatewayOutcome.ok r) s).1.activityLog =
        ({ id := env.nowId, timestamp := env.nowIso,
           action := "Test run: would delete " ++
             toString r.response.result.cleanup_summary.total_emails_processed ++
             " emails",
           emailsDeleted := 0,
           status := LogStatus.success } :: s.activityLog).take 50 ∧
      (r.response.result.cleanup_summary.total_emails_processed ≠ 0 →
        (testRunCleanup env (GatewayOutcome.ok r) s).1.activityLog.head?.map
            (fun e => e.emailsDeleted) ≠
          some r.response.result.cleanup_summary.total_emails_processed) ∧
      (r.response.result.cleanup_summary.total_emails_deleted ≠
          r.response.result.cleanup_summary.total_emails_processed →
        (runCleanupNow env (GatewayOutcome.ok r) s).1.activityLog.head?.map
            (fun e => e.emailsDeleted) ≠
          some r.response.result.cleanup_summary.total_emails_processed) := by
  have hcond : r.success = true ∧ r.response.status = "success" := ⟨hs, hst⟩
  have hrun : (runCleanupNow env (GatewayOutcome.ok r) s).1.activityLog =
      ({ id := env.nowId, timestamp := env.nowIso,
         action := "Scheduled cleanup executed",
         emailsDeleted := r.response.result.cleanup_summary.total_emails_deleted,
         status := LogStatus.success } :: s.activityLog).take 50 := by
    simp [runCleanupNow, hcond, addActivityLog]
  have htest : (testRunCleanup env (GatewayOutcome.ok r) s).1.activityLog =
      ({ id := env.nowId, timestamp := env.nowIso,
         action := "Test run: would delete " ++
           toString r.response.result.cleanup_summary.total_emails_processed ++
           " emails",
         emailsDeleted := 0,
         status := LogStatus.success } :: s.activityLog).take 50 := by
    simp [testRunCleanup, hcond, addActivityLog]
  refine ⟨hrun, by simp [runCleanupNow, hcond, addActivityLog], htest, ?_, ?_⟩
  · intro hp
    rw [htest, List.take_succ_cons]
    simpa using fun h => hp h.symm
  · intro hd
    rw [hrun, List.take_succ_cons]
    simpa using hd

/-- C4 witness: the concrete periodic result with 42 processed and 7
deleted records count 7 for `runNow` and count 0 for `testRun`. -/
theorem c4_periodic_success_recording_witness :
    (runCleanupNow envA (GatewayOutcome.ok (okPeriodicEnvelope periodicResultA))
        initialState).1.activityLog =
      [{ id := "1", timestamp := "t0", action := "Scheduled cleanup executed",
         emailsDeleted := 7, status := LogStatus.success }] := by
  have h := (c4_periodic_success_recording envA (okPeriodicEnvelope periodicResultA)
    initialState rfl rfl).1
  rw [h]
  rfl

/-! ## C5 — delete-selected behaviour -/

/-- C5: with a non-empty selection, a successful agent response makes
`deleteSelected` record exactly one activity entry whose action label
carries the selected count and whose count field is the response's
`emails_deleted`, keep exactly the previews whose id was not selected,
clear the selection, and append one assistant confirmation message; on an
inner failure or thrown call none of previews, selection, log or store
change; with an empty selection the whole call is a no-op that sends no
request. -/
theorem c5_delete_selected_behaviour (env : Env)
    (r : Envelope RandomAgentResponse) (s : AppState) :
    (s.selectedEmails.card ≠ 0 → r.success = true → r.response.status = "success" →
      (deleteSelectedEmails env (GatewayOutcome.ok r) s).1.activityLog =
          ({ id := env.nowId, timestamp := env.nowIso,
             action := "Deleted " ++ toString s.selectedEmails.card ++
               " selected emails",
             emailsDeleted := r.response.result.emails_deleted,
             status := LogStatus.success } :: s.activityLog).take 50 ∧
        (∀ e : EmailPreview,
          e ∈ (deleteSelectedEmails env (GatewayOutcome.ok r) s).1.emailPreviews ↔
            e ∈ s.emailPreviews ∧ e.id ∉ s.selectedEmails) ∧
        (deleteSelectedEmails env (GatewayOutcome.ok r) s).1.selectedEmails =
          (∅ : Finset String) ∧
        (deleteSelectedEmails env (GatewayOutcome.ok r) s).1.chatMessages =
          s.chatMessages ++
            [{ id := env.nowId, role := Role.assistant,
               content := "Successfully deleted " ++
                 toString r.response.result.emails_deleted ++ " emails.",
               timestamp := env.nowIso }]) ∧
    (s.selectedEmails.card ≠ 0 →
      ¬(r.success = true ∧ r.response.status = "success") →
      (deleteSelectedEmails env (GatewayOutcome.ok r) s).1.emailPreviews =
          s.emailPreviews ∧
        (deleteSelectedEmails env (GatewayOutcome.ok r) s).1.selectedEmails =
          s.selectedEmails ∧
        (deleteSelectedEmails env (GatewayOutcome.ok r) s).1.activityLog =
          s.activityLog ∧
        (deleteSelectedEmails env (GatewayOutcome.ok r) s).1.store = s.store ∧
        (deleteSelectedEmails env (GatewayOutcome.ok r) s).1.chatMessages =
          s.chatMessages) ∧
    (s.selectedEmails.card ≠ 0 →
      (deleteSelectedEmails env GatewayOutcome.threw s).1.emailPreviews =
          s.emailPreviews ∧
        (deleteSelectedEmails env GatewayOutcome.threw s).1.selectedEmails =
          s.selectedEmails ∧
        (deleteSelectedEmails env GatewayOutcome.threw s).1.activityLog =
          s.activityLog ∧
        (deleteSelectedEmails env GatewayOutcome.threw s).1.store = s.store ∧
        (deleteSelectedEmails env GatewayOutcome.threw s).1.chatMessages =
          s.chatMessages) ∧
    (s.selectedEmails.card = 0 →
      deleteSelectedEmails env (GatewayOutcome.ok r) s = (s, none) ∧
        deleteSelectedEmails env GatewayOutcome.threw s = (s, none)) := by
  refine ⟨fun hsel hs hst => ?_, fun hsel hfail => ?_, fun hsel => ?_, fun hsel => ?_⟩
  · have hcond : r.success = true ∧ r.response.status = "success" := ⟨hs, hst⟩
    refine ⟨?_, fun e => ?_, ?_, ?_⟩
    · simp [deleteSelectedEmails, hsel, hcond, addActivityLog]
    · simp [deleteSelectedEmails, hsel, hcond, addActivityLog, List.mem_filter]
    · simp [deleteSelectedEmails, hsel, hcond, addActivityLog]
    · simp [deleteSelectedEmails, hsel, hcond, addActivityLog]
  · simp [deleteSelectedEmails, hsel, hfail]
  · simp [deleteSelectedEmails, hsel]
  · simp [deleteSelectedEmails, hsel]

/-- C5 witness: the scenario of the spec in miniature — one of one previews
selected, the agent reports one deletion: the preview list empties, the
selection clears, the log gains one entry with count 1. -/
theorem c5_delete_selected_behaviour_witness :
    (deleteSelectedEmails envA
        (GatewayOutcome.ok (okEnvelope
          { emptyPreviewResult with emails_deleted := 1 }))
        stateWithSelection).1.selectedEmails = (∅ : Finset String) ∧
      (deleteSelectedEmails envA
          (GatewayOutcome.ok (okEnvelope
            { emptyPreviewResult with emails_deleted := 1 }))
          stateWithSelection).1.activityLog =
        [{ id := "1", timestamp := "t0", action := "Deleted 1 selected emails",
           emailsDeleted := 1, status := LogStatus.success }] := by
  have h := (c5_delete_selected_behaviour envA
    (okEnvelope { emptyPreviewResult with emails_deleted := 1 })
    stateWithSelection).1 (by decide) rfl rfl
  refine ⟨h.2.2.1, ?_⟩
  rw [h.1]
  rfl

/-! ## C9 — submit on a thrown gateway call -/

/-- C9: when the gateway call throws during a submit of a non-empty
utterance (gate down), the transcript gains exactly the optimistic user
message followed by exactly one assistant message carrying the fixed
generic error text, the chat gate ends cleared, and neither the activity
log nor the store changes. -/
theorem c9_submit_transport_failure (env : Env) (s : AppState)
    (h1 : jsTrim s.chatInput ≠ "") (h2 : s.chatLoading = false) :
    (sendChatMessage env GatewayOutcome.threw s).1.chatMessages =
        s.chatMessages ++
          [{ id := env.nowId, role := Role.user, content := s.chatInput,
             timestamp := env.nowIso },
           { id := env.nowId2, role := Role.assistant,
             content := "Network error. Please try again.",
             timestamp := env.nowIso }] ∧
      (sendChatMessage env GatewayOutcome.threw s).1.chatLoading = false ∧
      (sendChatMessage env GatewayOutcome.threw s).1.chatError =
        some "Network error. Please try again." ∧
      (sendChatMessage env GatewayOutcome.threw s).1.activityLog = s.activityLog ∧
      (sendChatMessage env GatewayOutcome.threw s).1.store = s.store := by
  rw [sendChatMessage_threw env s h1 h2]
  exact ⟨rfl, rfl, rfl, rfl, rfl⟩

/-- C9 witness: concrete thrown submit from a state with utterance `clear`:
two messages are appended, the second being the generic assistant error. -/
theorem c9_submit_transport_failure_witness :
    (sendChatMessage envA GatewayOutcome.threw stateWithSelection).1.chatMessages =
      [{ id := "1", role := Role.user, content := "clear", timestamp := "t0" },
       { id := "2", role := Role.assistant,
         content := "Network error. Please try again.", timestamp := "t0" }] := by
  have h := (c9_submit_transport_failure envA stateWithSelection (by decide) rfl).1
  rw [h]
  rfl

/-! ## C10 — frame of a failed submit -/

/-- C10 counterexample: the claim says a failed submit mutates only the
chat transcript and the chat error slot, but the optimistic phase also
clears the chat input buffer unconditionally: a thrown submit from a state
whose input buffer is `clear` ends with an empty buffer. -/
theorem c10_input_buffer_cleared_counterexample :
    (sendChatMessage envA GatewayOutcome.threw stateWithSelection).1.chatInput ≠
      stateWithSelection.chatInput := by
  decide

/-- C10 (amended): on every submit invocation that ends in failure (inner
failure envelope or a thrown gateway call), the preview batch, the
selection set, the settings record, the activity log, the persisted store,
the periodic state and the active tab are all unchanged; the mutations are
confined to the chat transcript, the chat error slot and the chat input
buffer (which the optimistic phase clears unconditionally), with the
in-flight gate restored to down. -/
theorem c10_submit_failure_frame_amended (env : Env) (s : AppState)
    (h1 : jsTrim s.chatInput ≠ "") (h2 : s.chatLoading = false) :
    (∀ r : Envelope RandomAgentResponse,
      ¬(r.success = true ∧ r.response.status = "success") →
      (sendChatMessage env (GatewayOutcome.ok r) s).1.emailPreviews =
          s.emailPreviews ∧
        (sendChatMessage env (GatewayOutcome.ok r) s).1.selectedEmails =
          s.selectedEmails ∧
        (sendChatMessage env (GatewayOutcome.ok r) s).1.settings = s.settings ∧
        (sendChatMessage env (GatewayOutcome.ok r) s).1.activityLog =
          s.activityLog ∧
        (sendChatMessage env (GatewayOutcome.ok r) s).1.store = s.store ∧
        (sendChatMessage env (GatewayOutcome.ok r) s).1.periodicLoading =
          s.periodicLoading ∧
        (sendChatMessage env (GatewayOutcome.ok r) s).1.periodicError =
          s.periodicError ∧
        (sendChatMessage env (GatewayOutcome.ok r) s).1.activeTab = s.activeTab ∧
        (sendChatMessage env (GatewayOutcome.ok r) s).1.settingsSaved =
          s.settingsSaved ∧
        (sendChatMessage env (GatewayOutcome.ok r) s).1.chatLoading = false ∧
        (sendChatMessage env (GatewayOutcome.ok r) s).1.chatInput = "" ∧
        (sendChatMessage env (GatewayOutcome.ok r) s).1.chatMessages =
          s.chatMessages ++
            [{ id := env.nowId, role := Role.user, content := s.chatInput,
               timestamp := env.nowIso },
             { id := env.nowId2, role := Role.assistant,
               content := jsOrOpt r.error
                 (jsOrOpt r.response.message "Failed to process request"),
               timestamp := env.nowIso }] ∧
        (sendChatMessage env (GatewayOutcome.ok r) s).1.chatError =
          some (jsOrOpt r.error
            (jsOrOpt r.response.message "Failed to process request"))) ∧
    ((sendChatMessage env GatewayOutcome.threw s).1.emailPreviews =
        s.emailPreviews ∧
      (sendChatMessage env GatewayOutcome.threw s).1.selectedEmails =
        s.selectedEmails ∧
      (sendChatMessage env GatewayOutcome.threw s).1.settings = s.settings ∧
      (sendChatMessage env GatewayOutcome.threw s).1.activityLog = s.activityLog ∧
      (sendChatMessage env GatewayOutcome.threw s).1.store = s.store ∧
      (sendChatMessage env GatewayOutcome.threw s).1.periodicLoading =
        s.periodicLoading ∧
      (sendChatMessage env GatewayOutcome.threw s).1.periodicError =
        s.periodicError ∧
      (sendChatMessage env GatewayOutcome.threw s).1.activeTab = s.activeTab ∧
      (sendChatMessage env GatewayOutcome.threw s).1.settingsSaved =
        s.settingsSaved ∧
      (sendChatMessage env GatewayOutcome.threw s).1.chatLoading = false ∧
      (sendChatMessage env GatewayOutcome.threw s).1.chatInput = "" ∧
      (sendChatMessage env GatewayOutcome.threw s).1.chatMessages =
        s.chatMessages ++
          [{ id := env.nowId, role := Role.user, content := s.chatInput,
             timestamp := env.nowIso },
           { id := env.nowId2, role := Role.assistant,
             content := "Network error. Please try again.",
             timestamp := env.nowIso }] ∧
      (sendChatMessage env GatewayOutcome.threw s).1.chatError =
        some "Network error. Please try again.") := by
  constructor
  · intro r hfail
    rw [sendChatMessage_ok_failure env r s h1 h2 hfail]
    exact ⟨rfl, rfl, rfl, rfl, rfl, rfl, rfl, rfl, rfl, rfl, rfl, rfl, rfl⟩
  · rw [sendChatMessage_threw env s h1 h2]
    exact ⟨rfl, rfl, rfl, rfl, rfl, rfl, rfl, rfl, rfl, rfl, rfl, rfl, rfl⟩

/-- C10 witness: a concrete inner-failure envelope leaves the previews and
selection of `stateWithSelection` untouched. -/
theorem c10_submit_failure_frame_amended_witness :
    (sendChatMessage envA
        (GatewayOutcome.ok
          { success := false, error := some "agent down",
            response := { status := "error", message := none,
                          result := emptyPreviewResult } })
        stateWithSelection).1.emailPreviews = stateWithSelection.emailPreviews ∧
      (sendChatMessage envA
          (GatewayOutcome.ok
            { success := false, error := some "agent down",
              response := { status := "error", message := none,
                            result := emptyPreviewResult } })
          stateWithSelection).1.selectedEmails =
        stateWithSelection.selectedEmails := by
  have h := (c10_submit_failure_frame_amended envA stateWithSelection
    (by decide) rfl).1
    { success := false, error := some "agent down",
      response := { status := "error", message := none,
                    result := emptyPreviewResult } }
    (by simp)
  exact ⟨h.1, h.2.1⟩

end MailCleaner
